import Mathlib

/-!
Verification development for the location-based selection component
(vtkLocationSelector): two matcher strategies over a spatial dataset
(a point matcher and a cell matcher), a configuration validator
(Initialize) and a per-block dispatcher (ComputeSelectedElementsForBlock).

Coordinates are modelled as rationals (an idealised model of the double
arithmetic in the source); the insideness mask is a list of integers
(signed one-byte values in the source).  The external spatial-index
collaborators (the static point locator, the geometric point lookup and
the cell locator) are fields of the dataset record: arbitrary functions,
constrained only by the interface contracts stated as hypotheses where a
claim needs them.
-/

namespace Vtk

/-- A 3-d coordinate, as stored in the query-location array and in the
dataset point store. -/
structure Point3 where
  x : ℚ
  y : ℚ
  z : ℚ
deriving DecidableEq

/-- Squared Euclidean distance between two 3-d points
(vtkMath::Distance2BetweenPoints). -/
def distance2BetweenPoints (a b : Point3) : ℚ :=
  (a.x - b.x) * (a.x - b.x) + (a.y - b.y) * (a.y - b.y) + (a.z - b.z) * (a.z - b.z)

/-- The target dataset together with its external query collaborators.
points models GetPoint/GetNumberOfPoints; isPointSet models the
IsA vtkPointSet capability test that decides whether a static point
locator is built; findPoint models vtkDataSet::FindPoint (geometric
lookup, radius-unaware, negative result meaning none); the
findClosestPointWithinRadius field models the query answered by the
static point locator built over the dataset; findCell models the query
answered by the static cell locator. -/
structure DataSet where
  points : List Point3
  isPointSet : Bool
  findPoint : Point3 → Int
  findClosestPointWithinRadius : ℚ → Point3 → Int
  findCell : Point3 → Int

/-- Coordinate access, vtkDataSet::GetPoint. -/
def DataSet.getPoint (ds : DataSet) (i : ℕ) : Point3 :=
  ds.points.getD i ⟨0, 0, 0⟩

/-- The initial fill of the mask: std::fill_n over the first n entries
with the value 0. -/
def fillN : List Int → ℕ → List Int
  | l, 0 => l
  | [], _ + 1 => []
  | _ :: t, n + 1 => 0 :: fillN t n

/-- Candidate point id resolved for one query location by the point
matcher: the locator query when the dataset is a point set, otherwise
FindPoint followed by the explicit squared-distance check against the
squared radius. -/
def pointCandidate (ds : DataSet) (radius : ℚ) (location : Point3) : Int :=
  if ds.isPointSet then
    ds.findClosestPointWithinRadius radius location
  else
    if 0 ≤ ds.findPoint location then
      if radius * radius <
          distance2BetweenPoints (ds.getPoint (ds.findPoint location).toNat) location then
        -1
      else
        ds.findPoint location
    else
      ds.findPoint location

/-- One iteration of the point-matcher loop: resolve the candidate for
one query location and, when it is non-negative, set its mask entry
to 1. -/
def pointStep (ds : DataSet) (radius : ℚ) (m : List Int) (location : Point3) : List Int :=
  if 0 ≤ pointCandidate ds radius location then
    m.set (pointCandidate ds radius location).toNat 1
  else
    m

/-- The point-matcher execute: early false return on an empty dataset,
otherwise zero-fill of the first numPoints mask entries followed by the
sequential loop over the query locations, returning true. -/
def vtkInternalsForPoints.Execute (selectionList : List Point3) (searchRadius : ℚ)
    (dataset : DataSet) (insidednessArray : List Int) : Bool × List Int :=
  if dataset.points.length = 0 then
    (false, insidednessArray)
  else
    (true, selectionList.foldl (pointStep dataset searchRadius)
      (fillN insidednessArray dataset.points.length))

/-- One iteration of the cell-matcher loop: a containment query, and a
mask write only when the returned cell id is non-negative and below the
number of mask tuples. -/
def cellStep (ds : DataSet) (numCells : Int) (m : List Int) (location : Point3) : List Int :=
  if 0 ≤ ds.findCell location ∧ ds.findCell location < numCells then
    m.set (ds.findCell location).toNat 1
  else
    m

/-- The cell-matcher execute: builds the cell locator unconditionally,
zero-fills the mask (numCells is the number of mask tuples), runs the
sequential loop over the query locations, and returns true. -/
def vtkInternalsForCells.Execute (selectionList : List Point3)
    (dataset : DataSet) (insidednessArray : List Int) : Bool × List Int :=
  (true, selectionList.foldl (cellStep dataset (insidednessArray.length : Int))
    (fillN insidednessArray insidednessArray.length))

/-- The matcher owned by the dispatcher: one of the two strategy
variants, each holding the query-location list and the search radius. -/
inductive Internals where
  | forPoints (selectionList : List Point3) (searchRadius : ℚ)
  | forCells (selectionList : List Point3) (searchRadius : ℚ)

/-- Virtual dispatch of Execute over the active matcher variant (the
cell matcher stores the radius but does not use it). -/
def vtkInternals.Execute : Internals → DataSet → List Int → Bool × List Int
  | .forPoints sel r, ds, m => vtkInternalsForPoints.Execute sel r ds m
  | .forCells sel _, ds, m => vtkInternalsForCells.Execute sel ds m

/-- The selection-list data array: its component count and its tuples
(read as 3-d locations when the component count is 3). -/
structure SelectionListArray where
  numComponents : ℕ
  tuples : List Point3

/-- The selection specification consumed by Initialize: the selection
list (none when the downcast to a data array fails), the content type,
the field type, and the optional EPSILON property. -/
structure SelectionNode where
  selectionList : Option SelectionListArray
  contentType : Int
  fieldType : Int
  epsilon : Option ℚ

/-- Modelled from the spec: the numeric value of the LOCATIONS content
type of the selection-node enumeration, whose header is not part of the
sources; only its distinctness matters to the validator. -/
def LOCATIONS : Int := 6

/-- Modelled from the spec: the points field association constant of the
data-object enumeration, whose header is not part of the sources. -/
def FIELD_ASSOCIATION_POINTS : Int := 0

/-- Modelled from the spec: the cells field association constant of the
data-object enumeration, whose header is not part of the sources. -/
def FIELD_ASSOCIATION_CELLS : Int := 1

/-- Modelled from the spec: vtkSelectionNode::ConvertSelectionFieldToAttributeType,
which is not part of the sources.  It resolves a selection field type to
a dataset attribute association; the spec requires only that point and
cell selections resolve to the points and cells associations and that
every other field type (field, vertex, edge, row, unrecognised) resolves
to something else. -/
def ConvertSelectionFieldToAttributeType (fieldType : Int) : Int :=
  if fieldType = 0 then FIELD_ASSOCIATION_CELLS
  else if fieldType = 1 then FIELD_ASSOCIATION_POINTS
  else if fieldType = 2 then 2
  else if fieldType = 3 then 4
  else if fieldType = 4 then 5
  else if fieldType = 5 then 6
  else 2

/-- The setup phase: resets the matcher, validates the specification
(non-empty data array, exactly 3 components, LOCATIONS content type,
points or cells association) and constructs the matching variant with
the configured radius (EPSILON property, defaulting to 0).  A none
result models the dispatcher being left Disabled. -/
def vtkLocationSelector.Initialize (node : SelectionNode) : Option Internals :=
  match node.selectionList with
  | none => none
  | some selectionList =>
    if selectionList.tuples.length = 0 then none
    else if selectionList.numComponents ≠ 3 then none
    else if node.contentType ≠ LOCATIONS then none
    else
      if ConvertSelectionFieldToAttributeType node.fieldType = FIELD_ASSOCIATION_POINTS then
        some (.forPoints selectionList.tuples (node.epsilon.getD 0))
      else if ConvertSelectionFieldToAttributeType node.fieldType = FIELD_ASSOCIATION_CELLS then
        some (.forCells selectionList.tuples (node.epsilon.getD 0))
      else
        none

/-- The evaluation phase: delegates to the active matcher when one
exists and the input downcasts to a dataset (a none input models a
failed downcast), otherwise returns false with the mask untouched. -/
def vtkLocationSelector.ComputeSelectedElementsForBlock (internals : Option Internals)
    (input : Option DataSet) (insidednessArray : List Int) : Bool × List Int :=
  match internals, input with
  | some i, some ds => vtkInternals.Execute i ds insidednessArray
  | _, _ => (false, insidednessArray)

/-! Basic facts about mask access and the initial zero fill. -/

theorem getD_set_self : ∀ (l : List Int) (i : ℕ) (v : Int), i < l.length →
    (l.set i v).getD i 0 = v
  | _ :: _, 0, _, _ => rfl
  | _ :: t, i + 1, v, h => getD_set_self t i v (Nat.lt_of_succ_lt_succ h)

theorem getD_set_ne : ∀ (l : List Int) (i j : ℕ) (v : Int), i ≠ j →
    (l.set i v).getD j 0 = l.getD j 0
  | [], _, _, _, _ => rfl
  | _ :: _, 0, 0, _, h => absurd rfl h
  | _ :: _, 0, _ + 1, _, _ => rfl
  | _ :: _, _ + 1, 0, _, _ => rfl
  | _ :: t, i + 1, j + 1, v, h =>
    getD_set_ne t i j v (fun hij => h (congrArg Nat.succ hij))

theorem getD_len_le : ∀ (l : List Int) (i : ℕ), l.length ≤ i → l.getD i 0 = 0
  | [], _, _ => rfl
  | _ :: t, i + 1, h => getD_len_le t i (Nat.le_of_succ_le_succ h)

theorem getD_replicate_zero : ∀ (n i : ℕ), (List.replicate n (0 : Int)).getD i 0 = 0
  | 0, _ => rfl
  | _ + 1, 0 => rfl
  | n + 1, i + 1 => getD_replicate_zero n i

theorem fillN_length : ∀ (l : List Int) (n : ℕ), (fillN l n).length = l.length
  | [], 0 => rfl
  | _ :: _, 0 => rfl
  | [], _ + 1 => rfl
  | _ :: t, n + 1 => congrArg Nat.succ (fillN_length t n)

theorem fillN_eq_replicate : ∀ (l : List Int) (n : ℕ), l.length = n →
    fillN l n = List.replicate n 0
  | [], 0, _ => rfl
  | _ :: t, n + 1, h =>
    congrArg (List.cons 0) (fillN_eq_replicate t n (Nat.succ_injective h))

theorem set_one_getD_one (m : List Int) (j i : ℕ) (h : m.getD i 0 = 1) :
    (m.set j (1 : Int)).getD i 0 = 1 := by
  by_cases hji : j = i
  · subst hji
    by_cases hl : j < m.length
    · exact getD_set_self m j 1 hl
    · rw [getD_len_le m j (Nat.le_of_not_lt hl)] at h
      exact absurd h (by decide)
  · rw [getD_set_ne m j i 1 hji]
    exact h

theorem set_one_getD_zero_or_one (m : List Int) (j i : ℕ)
    (h : m.getD i 0 = 0 ∨ m.getD i 0 = 1) :
    (m.set j (1 : Int)).getD i 0 = 0 ∨ (m.set j (1 : Int)).getD i 0 = 1 := by
  by_cases hji : j = i
  · subst hji
    by_cases hl : j < m.length
    · exact Or.inr (getD_set_self m j 1 hl)
    · exact Or.inl (getD_len_le _ j (by rw [List.length_set]; exact Nat.le_of_not_lt hl))
  · rw [getD_set_ne m j i 1 hji]
    exact h

theorem pointStep_length (ds : DataSet) (r : ℚ) (m : List Int) (loc : Point3) :
    (pointStep ds r m loc).length = m.length := by
  unfold pointStep
  split
  · exact List.length_set m _ _
  · rfl

theorem cellStep_length (ds : DataSet) (n : Int) (m : List Int) (loc : Point3) :
    (cellStep ds n m loc).length = m.length := by
  unfold cellStep
  split
  · exact List.length_set m _ _
  · rfl

theorem pointStep_getD_one (ds : DataSet) (r : ℚ) (m : List Int) (loc : Point3) (i : ℕ) :
    (pointStep ds r m loc).getD i 0 = 1 ↔
      (m.getD i 0 = 1 ∨ (i < m.length ∧ pointCandidate ds r loc = (i : Int))) := by
  unfold pointStep
  by_cases h : 0 ≤ pointCandidate ds r loc
  · rw [if_pos h]
    by_cases hc : (pointCandidate ds r loc).toNat = i
    · have hci : pointCandidate ds r loc = (i : Int) := by
        rw [← hc, Int.toNat_of_nonneg h]
      by_cases hl : i < m.length
      · rw [hc, getD_set_self m i 1 hl]
        exact ⟨fun _ => Or.inr ⟨hl, hci⟩, fun _ => rfl⟩
      · rw [hc, getD_len_le _ i (by rw [List.length_set]; exact Nat.le_of_not_lt hl),
          getD_len_le m i (Nat.le_of_not_lt hl)]
        constructor
        · intro hz
          exact absurd hz (by decide)
        · rintro ((hz : (0 : Int) = 1) | ⟨hlt, _⟩)
          · exact absurd hz (by decide)
          · exact absurd hlt hl
    · rw [getD_set_ne m _ i 1 hc]
      constructor
      · exact Or.inl
      · rintro (h1 | ⟨_, hci⟩)
        · exact h1
        · exact absurd (by rw [hci]; exact Int.toNat_natCast i) hc
  · rw [if_neg h]
    constructor
    · exact Or.inl
    · rintro (h1 | ⟨_, hci⟩)
      · exact h1
      · exact absurd (hci ▸ Int.natCast_nonneg i) h

theorem foldl_pointStep_getD_one (ds : DataSet) (r : ℚ) :
    ∀ (sl : List Point3) (m : List Int) (i : ℕ),
      (sl.foldl (pointStep ds r) m).getD i 0 = 1 ↔
        (m.getD i 0 = 1 ∨
          (i < m.length ∧ ∃ loc ∈ sl, pointCandidate ds r loc = (i : Int))) := by
  intro sl
  induction sl with
  | nil => intro m i; simp
  | cons loc rest ih =>
    intro m i
    rw [List.foldl_cons, ih (pointStep ds r m loc) i, pointStep_getD_one,
      pointStep_length]
    simp only [List.mem_cons]
    constructor
    · rintro ((h1 | ⟨hl, hc⟩) | ⟨hl, l, hml, hc⟩)
      · exact Or.inl h1
      · exact Or.inr ⟨hl, loc, Or.inl rfl, hc⟩
      · exact Or.inr ⟨hl, l, Or.inr hml, hc⟩
    · rintro (h1 | ⟨hl, l, (hml | hml), hc⟩)
      · exact Or.inl (Or.inl h1)
      · exact Or.inl (Or.inr ⟨hl, hml ▸ hc⟩)
      · exact Or.inr ⟨hl, l, hml, hc⟩

theorem foldl_pointStep_one_mono (ds : DataSet) (r : ℚ) :
    ∀ (sl : List Point3) (m : List Int) (i : ℕ), m.getD i 0 = 1 →
      (sl.foldl (pointStep ds r) m).getD i 0 = 1 := by
  intro sl
  induction sl with
  | nil => intro m i h; exact h
  | cons loc rest ih =>
    intro m i h
    rw [List.foldl_cons]
    refine ih _ i ?_
    unfold pointStep
    split
    · exact set_one_getD_one m _ i h
    · exact h

theorem foldl_cellStep_one_mono (ds : DataSet) (n : Int) :
    ∀ (sl : List Point3) (m : List Int) (i : ℕ), m.getD i 0 = 1 →
      (sl.foldl (cellStep ds n) m).getD i 0 = 1 := by
  intro sl
  induction sl with
  | nil => intro m i h; exact h
  | cons loc rest ih =>
    intro m i h
    rw [List.foldl_cons]
    refine ih _ i ?_
    unfold cellStep
    split
    · exact set_one_getD_one m _ i h
    · exact h

theorem foldl_pointStep_zero_or_one (ds : DataSet) (r : ℚ) :
    ∀ (sl : List Point3) (m : List Int) (i : ℕ),
      (m.getD i 0 = 0 ∨ m.getD i 0 = 1) →
      ((sl.foldl (pointStep ds r) m).getD i 0 = 0 ∨
        (sl.foldl (pointStep ds r) m).getD i 0 = 1) := by
  intro sl
  induction sl with
  | nil => intro m i h; exact h
  | cons loc rest ih =>
    intro m i h
    rw [List.foldl_cons]
    refine ih _ i ?_
    unfold pointStep
    split
    · exact set_one_getD_zero_or_one m _ i h
    · exact h

theorem foldl_cellStep_zero_or_one (ds : DataSet) (n : Int) :
    ∀ (sl : List Point3) (m : List Int) (i : ℕ),
      (m.getD i 0 = 0 ∨ m.getD i 0 = 1) →
      ((sl.foldl (cellStep ds n) m).getD i 0 = 0 ∨
        (sl.foldl (cellStep ds n) m).getD i 0 = 1) := by
  intro sl
  induction sl with
  | nil => intro m i h; exact h
  | cons loc rest ih =>
    intro m i h
    rw [List.foldl_cons]
    refine ih _ i ?_
    unfold cellStep
    split
    · exact set_one_getD_zero_or_one m _ i h
    · exact h

/-! The interface contracts of the external point-query collaborators,
as stated at the interface boundary of the spec, and the resulting
characterisation of the selected mask entries. -/

/-- Point index i is a nearest dataset point to the query location:
it is in range and no dataset point is strictly closer. -/
def isNearest (ds : DataSet) (i : ℕ) (loc : Point3) : Prop :=
  i < ds.points.length ∧
  ∀ j, j < ds.points.length →
    distance2BetweenPoints (ds.getPoint i) loc ≤ distance2BetweenPoints (ds.getPoint j) loc

/-- The contract of the two external point-query collaborators, relative
to a nearest-point designation nid: nid always designates a nearest
point; the locator query (used when the dataset is a point set) answers
nid when its squared distance is within the squared radius and a
negative sentinel otherwise; the geometric lookup (used otherwise) is
radius-unaware and answers nid. -/
def PointQueryContract (ds : DataSet) (nid : Point3 → ℕ) : Prop :=
  (∀ loc, isNearest ds (nid loc) loc) ∧
  (∀ (r : ℚ) (loc : Point3), ds.isPointSet = true →
    ds.findClosestPointWithinRadius r loc =
      if distance2BetweenPoints (ds.getPoint (nid loc)) loc ≤ r * r then
        ((nid loc : ℕ) : Int)
      else
        -1) ∧
  (∀ loc : Point3, ds.isPointSet = false → ds.findPoint loc = ((nid loc : ℕ) : Int))

theorem pointCandidate_of_contract (ds : DataSet) (nid : Point3 → ℕ)
    (hc : PointQueryContract ds nid) (r : ℚ) (loc : Point3) :
    pointCandidate ds r loc =
      if distance2BetweenPoints (ds.getPoint (nid loc)) loc ≤ r * r then
        ((nid loc : ℕ) : Int)
      else
        -1 := by
  unfold pointCandidate
  cases hps : ds.isPointSet with
  | true => rw [if_pos rfl, hc.2.1 r loc hps]
  | false =>
    rw [if_neg Bool.false_ne_true, hc.2.2 loc hps,
      if_pos (Int.natCast_nonneg (nid loc)), Int.toNat_natCast]
    by_cases hd : distance2BetweenPoints (ds.getPoint (nid loc)) loc ≤ r * r
    · rw [if_neg (not_lt.mpr hd), if_pos hd]
    · rw [if_pos (not_le.mp hd), if_neg hd]

theorem Execute_points_getD_one_iff (ds : DataSet) (nid : Point3 → ℕ) (r : ℚ)
    (sl : List Point3) (m : List Int)
    (hc : PointQueryContract ds nid) (hm : m.length = ds.points.length) (i : ℕ) :
    (vtkInternalsForPoints.Execute sl r ds m).2.getD i 0 = 1 ↔
      ∃ loc ∈ sl, nid loc = i ∧
        distance2BetweenPoints (ds.getPoint i) loc ≤ r * r := by
  unfold vtkInternalsForPoints.Execute
  by_cases hz : ds.points.length = 0
  · exact absurd (hc.1 ⟨0, 0, 0⟩).1 (by rw [hz]; exact Nat.not_lt_zero _)
  · rw [if_neg hz]
    simp only
    rw [foldl_pointStep_getD_one, fillN_eq_replicate m _ hm, getD_replicate_zero,
      List.length_replicate]
    constructor
    · rintro ((h0 : (0 : Int) = 1) | ⟨hi, loc, hmem, hcand⟩)
      · exact absurd h0 (by decide)
      · rw [pointCandidate_of_contract ds nid hc r loc] at hcand
        by_cases hd : distance2BetweenPoints (ds.getPoint (nid loc)) loc ≤ r * r
        · rw [if_pos hd] at hcand
          have hni : nid loc = i := Int.natCast_inj.mp hcand
          exact ⟨loc, hmem, hni, by rw [← hni]; exact hd⟩
        · rw [if_neg hd] at hcand
          exact absurd (hcand ▸ Int.natCast_nonneg i) (by decide)
    · rintro ⟨loc, hmem, hni, hd⟩
      refine Or.inr ⟨hni ▸ (hc.1 loc).1, loc, hmem, ?_⟩
      rw [pointCandidate_of_contract ds nid hc r loc, if_pos (by rw [hni]; exact hd), hni]

/-! The claims. -/

/-- C1: in the point-matcher execute, on the lookup-based path (the
dataset is not a point set, so no locator is built), whenever FindPoint
returns a candidate id that is non-negative, the candidate resolves to
the rejection sentinel exactly when the squared distance between the
candidate point and the query exceeds the squared search radius, in
which case the mask is left unchanged for that query; otherwise the
candidate entry of the mask is set to 1. -/
theorem claim_C1 (ds : DataSet) (r : ℚ) (loc : Point3) (m : List Int)
    (hps : ds.isPointSet = false) (hid : 0 ≤ ds.findPoint loc) :
    (pointCandidate ds r loc = -1 ↔
      r * r < distance2BetweenPoints (ds.getPoint (ds.findPoint loc).toNat) loc) ∧
    (r * r < distance2BetweenPoints (ds.getPoint (ds.findPoint loc).toNat) loc →
      pointStep ds r m loc = m) ∧
    (distance2BetweenPoints (ds.getPoint (ds.findPoint loc).toNat) loc ≤ r * r →
      pointStep ds r m loc = m.set (ds.findPoint loc).toNat 1) := by
  have hcand : pointCandidate ds r loc =
      if r * r < distance2BetweenPoints (ds.getPoint (ds.findPoint loc).toNat) loc then
        -1
      else
        ds.findPoint loc := by
    unfold pointCandidate
    rw [if_neg (by rw [hps]; exact Bool.false_ne_true), if_pos hid]
  refine ⟨?_, ?_, ?_⟩
  · rw [hcand]
    by_cases hd : r * r < distance2BetweenPoints (ds.getPoint (ds.findPoint loc).toNat) loc
    · rw [if_pos hd]
      exact ⟨fun _ => hd, fun _ => rfl⟩
    · rw [if_neg hd]
      constructor
      · intro hfp
        exact absurd (hfp ▸ hid) (by decide)
      · intro hd1
        exact absurd hd1 hd
  · intro hd
    unfold pointStep
    rw [hcand, if_pos hd, if_neg (by decide)]
  · intro hd
    unfold pointStep
    rw [hcand, if_neg (not_lt.mpr hd), if_pos hid]

/-- C2: the point-matcher execute returns true exactly when the dataset
has at least one point, and on a zero-point dataset it returns false
leaving the mask exactly as given. -/
theorem claim_C2 (ds : DataSet) (r : ℚ) (sl : List Point3) (m : List Int) :
    ((vtkInternalsForPoints.Execute sl r ds m).1 = true ↔ 0 < ds.points.length) ∧
    (ds.points.length = 0 → (vtkInternalsForPoints.Execute sl r ds m).2 = m) := by
  unfold vtkInternalsForPoints.Execute
  by_cases hz : ds.points.length = 0
  · rw [if_pos hz]
    refine ⟨⟨fun h => absurd h Bool.false_ne_true, fun h => ?_⟩, fun _ => rfl⟩
    rw [hz] at h
    exact absurd h (by decide)
  · rw [if_neg hz]
    exact ⟨⟨fun _ => Nat.pos_of_ne_zero hz, fun _ => rfl⟩, fun h => absurd h hz⟩

/-- C3: in the cell-matcher loop, one iteration writes a mask entry
(always the value 1) exactly when the containment query returns a cell
id that is non-negative and strictly below the number of mask tuples; a
negative or out-of-range id leaves the mask unchanged, the mask length
is never changed, and no entry at an out-of-range index is ever
written. -/
theorem claim_C3 (ds : DataSet) (m : List Int) (loc : Point3) :
    ((0 ≤ ds.findCell loc ∧ ds.findCell loc < (m.length : Int)) →
      cellStep ds (m.length : Int) m loc = m.set (ds.findCell loc).toNat 1) ∧
    (¬(0 ≤ ds.findCell loc ∧ ds.findCell loc < (m.length : Int)) →
      cellStep ds (m.length : Int) m loc = m) ∧
    (cellStep ds (m.length : Int) m loc).length = m.length ∧
    (∀ i : ℕ, m.length ≤ i →
      (cellStep ds (m.length : Int) m loc).getD i 0 = m.getD i 0) := by
  refine ⟨?_, ?_, cellStep_length ds _ m loc, ?_⟩
  · intro h
    unfold cellStep
    rw [if_pos h]
  · intro h
    unfold cellStep
    rw [if_neg h]
  · intro i hi
    unfold cellStep
    by_cases h : 0 ≤ ds.findCell loc ∧ ds.findCell loc < (m.length : Int)
    · rw [if_pos h]
      refine getD_set_ne m _ i 1 ?_
      have : (ds.findCell loc).toNat < m.length := by omega
      omega
    · rw [if_neg h]

/-- C4: Initialize constructs no matcher (the internals stay unset, the
dispatcher is Disabled) when the location array does not have exactly 3
components, or the content type is not LOCATIONS, or the field
association resolves to neither points nor cells. -/
theorem claim_C4 (node : SelectionNode) :
    (∀ sl, node.selectionList = some sl → sl.numComponents ≠ 3 →
      vtkLocationSelector.Initialize node = none) ∧
    (node.contentType ≠ LOCATIONS → vtkLocationSelector.Initialize node = none) ∧
    (ConvertSelectionFieldToAttributeType node.fieldType ≠ FIELD_ASSOCIATION_POINTS →
      ConvertSelectionFieldToAttributeType node.fieldType ≠ FIELD_ASSOCIATION_CELLS →
      vtkLocationSelector.Initialize node = none) := by
  refine ⟨?_, ?_, ?_⟩
  · intro sl hsl hcomp
    unfold vtkLocationSelector.Initialize
    rw [hsl]
    by_cases ht : sl.tuples.length = 0
    · simp [ht]
    · simp [ht, hcomp]
  · intro hct
    unfold vtkLocationSelector.Initialize
    cases node.selectionList with
    | none => rfl
    | some sl =>
      by_cases ht : sl.tuples.length = 0
      · simp [ht]
      · by_cases hcomp : sl.numComponents = 3
        · simp [ht, hcomp, hct]
        · simp [ht, hcomp]
  · intro hp hcl
    unfold vtkLocationSelector.Initialize
    cases node.selectionList with
    | none => rfl
    | some sl =>
      by_cases ht : sl.tuples.length = 0
      · simp [ht]
      · by_cases hcomp : sl.numComponents = 3
        · by_cases hct : node.contentType = LOCATIONS
          · simp [ht, hcomp, hct, hp, hcl]
          · simp [ht, hcomp, hct]
        · simp [ht, hcomp]

/-- C5: when no matcher was constructed, every evaluation call returns
false and leaves the given mask exactly as provided. -/
theorem claim_C5 (input : Option DataSet) (m : List Int) :
    vtkLocationSelector.ComputeSelectedElementsForBlock none input m = (false, m) := by
  cases input <;> rfl

/-- C6: for the point matcher with a positive radius, under the
interface contracts of the external point queries and with a unique
nearest point per query location, a mask entry is selected exactly when
its point is the nearest dataset point to some query location at squared
distance within the squared radius; and every entry selected under
radius r is also selected under any radius at least r. -/
theorem claim_C6 (ds : DataSet) (nid : Point3 → ℕ) (r rBig : ℚ) (sl : List Point3)
    (m mBig : List Int)
    (hc : PointQueryContract ds nid)
    (hu : ∀ loc ∈ sl, ∀ i, isNearest ds i loc → i = nid loc)
    (hr : 0 < r) (hrr : r ≤ rBig)
    (hm : m.length = ds.points.length) (hmBig : mBig.length = ds.points.length) :
    (∀ i, (vtkInternalsForPoints.Execute sl r ds m).2.getD i 0 = 1 ↔
      ∃ loc ∈ sl, isNearest ds i loc ∧
        distance2BetweenPoints (ds.getPoint i) loc ≤ r * r) ∧
    (∀ i, (vtkInternalsForPoints.Execute sl r ds m).2.getD i 0 = 1 →
      (vtkInternalsForPoints.Execute sl rBig ds mBig).2.getD i 0 = 1) := by
  constructor
  · intro i
    rw [Execute_points_getD_one_iff ds nid r sl m hc hm i]
    constructor
    · rintro ⟨loc, hmem, hni, hd⟩
      exact ⟨loc, hmem, hni ▸ hc.1 loc, hd⟩
    · rintro ⟨loc, hmem, hnear, hd⟩
      exact ⟨loc, hmem, (hu loc hmem i hnear).symm, hd⟩
  · intro i h
    rw [Execute_points_getD_one_iff ds nid r sl m hc hm i] at h
    obtain ⟨loc, hmem, hni, hd⟩ := h
    rw [Execute_points_getD_one_iff ds nid rBig sl mBig hc hmBig i]
    exact ⟨loc, hmem, hni,
      le_trans hd (mul_le_mul hrr hrr (le_of_lt hr) (le_trans (le_of_lt hr) hrr))⟩

/-- C7: within one execute call of either matcher, a mask entry equal to
1 after some prefix of the query-location loop is still 1 after the rest
of the loop, and after the initial zero fill every entry of the final
mask is 0 or 1 (all writes write the value 1). -/
theorem claim_C7 (ds : DataSet) (r : ℚ) (numCells : Int) (m : List Int)
    (sl1 sl2 : List Point3) (i : ℕ) :
    ((sl1.foldl (pointStep ds r) m).getD i 0 = 1 →
      ((sl1 ++ sl2).foldl (pointStep ds r) m).getD i 0 = 1) ∧
    ((sl1.foldl (cellStep ds numCells) m).getD i 0 = 1 →
      ((sl1 ++ sl2).foldl (cellStep ds numCells) m).getD i 0 = 1) ∧
    (m.length = ds.points.length →
      ((vtkInternalsForPoints.Execute sl1 r ds m).2.getD i 0 = 0 ∨
        (vtkInternalsForPoints.Execute sl1 r ds m).2.getD i 0 = 1)) ∧
    ((vtkInternalsForCells.Execute sl1 ds m).2.getD i 0 = 0 ∨
      (vtkInternalsForCells.Execute sl1 ds m).2.getD i 0 = 1) := by
  refine ⟨?_, ?_, ?_, ?_⟩
  · intro h
    rw [List.foldl_append]
    exact foldl_pointStep_one_mono ds r sl2 _ i h
  · intro h
    rw [List.foldl_append]
    exact foldl_cellStep_one_mono ds numCells sl2 _ i h
  · intro hm
    unfold vtkInternalsForPoints.Execute
    by_cases hz : ds.points.length = 0
    · rw [if_pos hz]
      exact Or.inl (getD_len_le m i (le_trans (Nat.le_of_eq (hm.trans hz)) (Nat.zero_le i)))
    · rw [if_neg hz]
      refine foldl_pointStep_zero_or_one ds r sl1 _ i (Or.inl ?_)
      rw [fillN_eq_replicate m _ hm]
      exact getD_replicate_zero _ i
  · unfold vtkInternalsForCells.Execute
    refine foldl_cellStep_zero_or_one ds _ sl1 _ i (Or.inl ?_)
    rw [fillN_eq_replicate m _ rfl]
    exact getD_replicate_zero _ i

/-- C8: the cell-matcher execute returns true on every dataset,
including a dataset with zero cells: it has no early-exit path. -/
theorem claim_C8 (ds : DataSet) (sl : List Point3) (m : List Int) :
    (vtkInternalsForCells.Execute sl ds m).1 = true := rfl

/-- C9: for a non-empty query-location set and a non-empty point
dataset, the point-matcher execute is a deterministic function of the
dataset, the location set and the radius: two runs (even starting from
differently pre-filled masks of the right length) produce identical
return values and identical output masks. -/
theorem claim_C9 (ds : DataSet) (r : ℚ) (sl : List Point3) (m1 m2 : List Int)
    (_hsl : sl ≠ []) (hds : ds.points ≠ [])
    (h1 : m1.length = ds.points.length) (h2 : m2.length = ds.points.length) :
    vtkInternalsForPoints.Execute sl r ds m1 = vtkInternalsForPoints.Execute sl r ds m2 := by
  unfold vtkInternalsForPoints.Execute
  have hz : ds.points.length ≠ 0 := fun h => hds (List.length_eq_zero.mp h)
  rw [if_neg hz, if_neg hz, fillN_eq_replicate m1 _ h1, fillN_eq_replicate m2 _ h2]

/-- C10: even with an active matcher, the evaluation call returns false
and leaves the mask untouched when the input data object does not
downcast to a dataset; the matcher is only invoked on a successfully
downcast dataset. -/
theorem claim_C10 (internals : Internals) (m : List Int) :
    vtkLocationSelector.ComputeSelectedElementsForBlock (some internals) none m =
      (false, m) := rfl

/-! Concrete instances used by the witnesses. -/

/-- A one-point dataset without explicit point storage, whose geometric
lookup always answers the single point. -/
def dsOne : DataSet :=
  { points := [⟨0, 0, 0⟩]
    isPointSet := false
    findPoint := fun _ => 0
    findClosestPointWithinRadius := fun _ _ => -1
    findCell := fun _ => -1 }

/-- An empty dataset. -/
def dsEmpty : DataSet :=
  { points := []
    isPointSet := false
    findPoint := fun _ => -1
    findClosestPointWithinRadius := fun _ _ => -1
    findCell := fun _ => -1 }

/-- A dataset whose containment query always answers cell 0. -/
def dsCell : DataSet :=
  { points := [⟨0, 0, 0⟩]
    isPointSet := false
    findPoint := fun _ => -1
    findClosestPointWithinRadius := fun _ _ => -1
    findCell := fun _ => 0 }

theorem dsOne_nearest : ∀ loc, isNearest dsOne 0 loc := by
  intro loc
  refine ⟨Nat.one_pos, fun j hj => ?_⟩
  rw [Nat.lt_one_iff.mp hj]

theorem dsOne_contract : PointQueryContract dsOne (fun _ => 0) :=
  ⟨dsOne_nearest, fun _ _ h => absurd h Bool.false_ne_true, fun _ _ => rfl⟩

/-- A specification with a 2-component location array. -/
def nodeBadComponents : SelectionNode :=
  { selectionList := some { numComponents := 2, tuples := [⟨0, 0, 0⟩] }
    contentType := LOCATIONS
    fieldType := 1
    epsilon := none }

/-- A specification whose content type is not LOCATIONS. -/
def nodeBadContent : SelectionNode :=
  { selectionList := some { numComponents := 3, tuples := [⟨0, 0, 0⟩] }
    contentType := 0
    fieldType := 1
    epsilon := none }

/-- A specification whose field type resolves to the edges
association. -/
def nodeBadAssoc : SelectionNode :=
  { selectionList := some { numComponents := 3, tuples := [⟨0, 0, 0⟩] }
    contentType := LOCATIONS
    fieldType := 4
    epsilon := none }

/-- Witness for C1: on the lookup path with radius 0 and a query at
distance 1 from the single point, the candidate is rejected and the
mask is unchanged. -/
theorem claim_C1_witness :
    pointStep dsOne 0 [(5 : Int)] ⟨1, 0, 0⟩ = [(5 : Int)] :=
  (claim_C1 dsOne 0 ⟨1, 0, 0⟩ [(5 : Int)] rfl (by decide)).2.1
    (by simp [distance2BetweenPoints, dsOne, DataSet.getPoint])

/-- Witness for C2: on a zero-point dataset the mask is returned exactly
as given. -/
theorem claim_C2_witness :
    (vtkInternalsForPoints.Execute [] 0 dsEmpty [(3 : Int)]).2 = [(3 : Int)] :=
  (claim_C2 dsEmpty 0 [] [(3 : Int)]).2 rfl

/-- Witness for C3: an in-range containment answer sets its mask entry
to 1. -/
theorem claim_C3_witness :
    cellStep dsCell ((1 : ℕ) : Int) [(0 : Int)] ⟨0, 0, 0⟩ = [(1 : Int)] :=
  (claim_C3 dsCell [(0 : Int)] ⟨0, 0, 0⟩).1 (by decide)

/-- Witness for C4: each of the three invalid specifications leaves the
dispatcher without a matcher. -/
theorem claim_C4_witness :
    vtkLocationSelector.Initialize nodeBadComponents = none ∧
    vtkLocationSelector.Initialize nodeBadContent = none ∧
    vtkLocationSelector.Initialize nodeBadAssoc = none :=
  ⟨(claim_C4 nodeBadComponents).1 _ rfl (by decide),
    (claim_C4 nodeBadContent).2.1 (by decide),
    (claim_C4 nodeBadAssoc).2.2 (by decide) (by decide)⟩

/-- Witness for C6: with radius 1, a query at the single point selects
it. -/
theorem claim_C6_witness :
    (vtkInternalsForPoints.Execute [⟨0, 0, 0⟩] 1 dsOne [(0 : Int)]).2.getD 0 0 = 1 :=
  ((claim_C6 dsOne (fun _ => 0) 1 2 [⟨0, 0, 0⟩] [(0 : Int)] [(0 : Int)]
      dsOne_contract (fun _ _ i hi => Nat.lt_one_iff.mp hi.1)
      (by decide) (by decide) rfl rfl).1 0).mpr
    ⟨⟨0, 0, 0⟩, List.mem_singleton_self _, dsOne_nearest _,
      by simp [distance2BetweenPoints, dsOne, DataSet.getPoint]⟩

/-- Witness for C7: an entry already 1 after the processed prefix stays
1 after the whole loop. -/
theorem claim_C7_witness :
    ((([] : List Point3) ++ []).foldl (pointStep dsOne 0) [(1 : Int)]).getD 0 0 = 1 :=
  (claim_C7 dsOne 0 1 [(1 : Int)] [] [] 0).1 (by decide)

/-- Witness for C9: two runs on the same non-empty dataset and location
set, starting from differently pre-filled masks, agree. -/
theorem claim_C9_witness :
    vtkInternalsForPoints.Execute [⟨0, 0, 0⟩] 0 dsOne [(0 : Int)] =
      vtkInternalsForPoints.Execute [⟨0, 0, 0⟩] 0 dsOne [(9 : Int)] :=
  claim_C9 dsOne 0 [⟨0, 0, 0⟩] [(0 : Int)] [(9 : Int)] (by decide) (by decide) rfl rfl

end Vtk
